import Mathlib

/-!
Shallow embedding of the CRM proxy service (`src/server.js`) and proofs of the
frozen claims about it.

Each Express route handler is modelled as a pure Lean function from the
inbound request data and the outcomes of the upstream CRM calls it may make
(injected as `Except`-valued parameters, one per potential call) to a pair of
the HTTP response produced and the ordered list of upstream calls actually
issued.  JSON values are a small inductive type; JavaScript truthiness and
`||` defaulting are modelled explicitly.  JavaScript numbers are modelled as
integers (no NaN); a truthy non-string where the code calls a string method,
or a truthy non-array where the code calls an array method, would make the
JavaScript throw and is outside the model.
-/

/-- JSON values as passed through the service.  `undefined` is modelled by
`Option Json` at the use sites (property lookup, optional chaining). -/
inductive Json where
  | null : Json
  | bool : Bool → Json
  | num : Int → Json
  | str : String → Json
  | arr : List Json → Json
  | obj : List (String × Json) → Json

/-- First binding of a key in an object's field list (JavaScript runtime
objects have unique keys). -/
def lookupField : List (String × Json) → String → Option Json
  | [], _ => none
  | (k, v) :: rest, key => if k = key then some v else lookupField rest key

/-- JavaScript property access `j.key`: `undefined` (`none`) on non-objects
and on missing keys. -/
def jsonLookup (j : Json) (key : String) : Option Json :=
  match j with
  | Json.obj fields => lookupField fields key
  | _ => none

/-- JavaScript truthiness of a defined value. -/
def jsonTruthy : Json → Bool
  | Json.null => false
  | Json.bool b => b
  | Json.num n => n != 0
  | Json.str s => s != ""
  | Json.arr _ => true
  | Json.obj _ => true

/-- Truthiness of a possibly-`undefined` value. -/
def optTruthy : Option Json → Bool
  | some j => jsonTruthy j
  | none => false

/-- JavaScript `x || d` where `x` may be `undefined` and `d` is defined. -/
def jsOr (x : Option Json) (d : Json) : Json :=
  match x with
  | some j => if jsonTruthy j then j else d
  | none => d

/-- JavaScript `x || s` with a string fallback (`error.response?.data ||
error.message` and the like). -/
def jsOrStr (x : Option Json) (s : String) : Json :=
  jsOr x (Json.str s)

/-- `data.results || []` followed by array use: the defined-array case; a
falsy or missing `results` gives `[]`. -/
def getResultsArr (data : Json) : List Json :=
  match jsonLookup data "results" with
  | some (Json.arr xs) => xs
  | _ => []

/-- Membership of the JavaScript regex class `\s` (ECMAScript WhiteSpace and
LineTerminator). -/
def isJsWhitespace (c : Char) : Bool :=
  c = ' ' || c = '\t' || c = '\n' || c = '\x0b' || c = '\x0c' || c = '\r' ||
  c = '\u00A0' || c = '\u1680' || ('\u2000' ≤ c && c ≤ '\u200A') ||
  c = '\u2028' || c = '\u2029' || c = '\u202F' || c = '\u205F' ||
  c = '\u3000' || c = '\uFEFF'

/-- Strip an expected literal off the front of a character list; `none` when
the list does not start with it. -/
def dropLiteral : List Char → List Char → Option (List Char)
  | [], cs => some cs
  | _ :: _, [] => none
  | p :: ps, c :: cs => if c = p then dropLiteral ps cs else none

/-- One attempt of the regex `/Existing ID:\s*(\d+)/` anchored at the current
position: the literal, then greedy whitespace, then at least one digit
(backtracking into `\s*` cannot produce a digit, so greedy is exact). -/
def tryMatchAt (cs : List Char) : Option String :=
  match dropLiteral "Existing ID:".data cs with
  | none => none
  | some rest =>
    let digits := (rest.dropWhile isJsWhitespace).takeWhile Char.isDigit
    if digits.isEmpty then none else some (String.mk digits)

/-- The regex search of `message.match(/Existing ID:\s*(\d+)/)`: first start
position at which the pattern matches wins. -/
def scanExistingId : List Char → Option String
  | [] => none
  | c :: cs =>
    match tryMatchAt (c :: cs) with
    | some d => some d
    | none => scanExistingId cs

/-- `message.match(/Existing ID:\s*(\d+)/)` returning the first capture group
(the parsed digits), as in `server.js` lines 117-121. -/
def extractExistingId (message : String) : Option String :=
  scanExistingId message.data

/-- The part of an axios error visible through `error.response` (`status` and
`data`). -/
structure AxiosErrorResponse where
  status : Nat
  data : Option Json

/-- An axios upstream failure: an optional HTTP response plus the error's
`message` string. -/
structure AxiosError where
  response : Option AxiosErrorResponse
  message : String

/-- `error.response?.data`. -/
def hubspotErrorOf (e : AxiosError) : Option Json :=
  e.response.bind AxiosErrorResponse.data

/-- `error.response?.status`. -/
def statusCodeOf (e : AxiosError) : Option Nat :=
  e.response.map AxiosErrorResponse.status

/-- `hubspotError?.category`. -/
def categoryOf (e : AxiosError) : Option Json :=
  (hubspotErrorOf e).bind (fun j => jsonLookup j "category")

/-- `hubspotError?.message || ''` as consumed by `.match`: the model covers a
string-valued or absent/falsy `message` field (a truthy non-string would make
the JavaScript throw). -/
def messageOf (e : AxiosError) : String :=
  match (hubspotErrorOf e).bind (fun j => jsonLookup j "message") with
  | some (Json.str s) => s
  | _ => ""

/-- `category === 'CONFLICT'` (strict equality against a string literal). -/
def isConflictCategory : Option Json → Bool
  | some (Json.str s) => s = "CONFLICT"
  | _ => false

/-- The conflict test of line 114: `statusCode === 409 || category ===
'CONFLICT'`. -/
def isConflict (e : AxiosError) : Bool :=
  statusCodeOf e == some 409 || isConflictCategory (categoryOf e)

/-- An HTTP response produced by the service: status code and JSON body. -/
structure Response where
  status : Nat
  body : Json

/-- The upstream CRM calls the service can issue, with the request data each
one carries.  The trace of a handler run is a list of these in issue order. -/
inductive UpstreamCall where
  | getContacts : Nat → String → UpstreamCall
  | postContact : Option Json → UpstreamCall
  | searchContacts : Json → UpstreamCall
  | getDeals : Nat → String → UpstreamCall
  | postDeal : Option Json → UpstreamCall
  | putDealContactAssoc : Option Json → Option Json → Nat → UpstreamCall
  | getContactDealAssoc : String → Nat → UpstreamCall
  | batchReadDeals : Json → UpstreamCall

/-- The generic 500 body `{ error: <label>, details: error.response?.data ||
error.message }`. -/
def mkError500 (label : String) (e : AxiosError) : Response :=
  ⟨500, Json.obj [("error", Json.str label),
                  ("details", jsOrStr (hubspotErrorOf e) e.message)]⟩

/-- `POST /api/contacts` (`server.js` lines 92-145): forward `req.body.properties`
to the CRM create-object call; on success echo the created record; on a
conflict (409 status or CONFLICT category) try to parse an existing id out of
the error message and synthesize `{ id, properties, existing: true }`, else
409; all other failures become a generic 500. -/
def createContactHandler (body : Json) (upstream : Except AxiosError Json) :
    Response × List UpstreamCall :=
  let props := jsonLookup body "properties"
  let call := UpstreamCall.postContact props
  match upstream with
  | Except.ok data => (⟨200, data⟩, [call])
  | Except.error e =>
    if isConflict e then
      match extractExistingId (messageOf e) with
      | some existingId =>
        (⟨200, Json.obj [("id", Json.str existingId),
                         ("properties", jsOr props (Json.obj [])),
                         ("existing", Json.bool true)]⟩, [call])
      | none =>
        (⟨409, Json.obj [("error", Json.str "Contact already exists"),
                         ("details", jsOrStr (hubspotErrorOf e) (messageOf e))]⟩,
         [call])
    else
      (mkError500 "Failed to create contact" e, [call])

/-- The fixed property set requested by `GET /api/contacts` (lines 62-70). -/
def contactPropertyList : List String :=
  ["firstname", "lastname", "email", "phone", "address", "jobtitle", "company"]

/-- The fixed property set requested for deals (lines 214-220 and 310). -/
def dealPropertyList : List String :=
  ["dealname", "amount", "dealstage", "closedate", "pipeline"]

/-- `GET /api/contacts` (lines 57-87): one upstream list call with `limit: 50`
and the joined property string; success responds `{ results: data.results ||
[] }`, failure a generic 500. -/
def listContactsHandler (upstream : Except AxiosError Json) :
    Response × List UpstreamCall :=
  let call := UpstreamCall.getContacts 50 (String.intercalate "," contactPropertyList)
  match upstream with
  | Except.ok data =>
    (⟨200, Json.obj [("results", Json.arr (getResultsArr data))]⟩, [call])
  | Except.error e => (mkError500 "Failed to fetch contacts" e, [call])

/-- `GET /api/deals` (lines 209-237): mirrors list-contacts for deals. -/
def listDealsHandler (upstream : Except AxiosError Json) :
    Response × List UpstreamCall :=
  let call := UpstreamCall.getDeals 50 (String.intercalate "," dealPropertyList)
  match upstream with
  | Except.ok data =>
    (⟨200, Json.obj [("results", Json.arr (getResultsArr data))]⟩, [call])
  | Except.error e => (mkError500 "Failed to fetch deals" e, [call])

/-- An error thrown by the HubSpot SDK search call: its optional `message`
property and its `String(error)` rendering (lines 194-199). -/
structure SearchError where
  message : Option String
  rendered : String

/-- `error.message || String(error)`. -/
def searchErrorDetails (e : SearchError) : String :=
  match e.message with
  | some m => if m = "" then e.rendered else m
  | none => e.rendered

/-- The search request body built on lines 160-174: exact-equality filter on
`email`, three requested properties, `limit: 1`. -/
def searchRequestFor (email : String) : Json :=
  Json.obj
    [("filterGroups", Json.arr
       [Json.obj [("filters", Json.arr
          [Json.obj [("propertyName", Json.str "email"),
                     ("operator", Json.str "EQ"),
                     ("value", Json.str email)]])]]),
     ("properties", Json.arr [Json.str "firstname", Json.str "lastname",
                              Json.str "email"]),
     ("limit", Json.num 1)]

/-- `res.json` drops object entries whose value is `undefined`
(JSON serialization). -/
def objDropUndefined (fields : List (String × Option Json)) : Json :=
  Json.obj (fields.filterMap (fun p => p.2.map (fun v => (p.1, v))))

/-- The 400 body for a missing email parameter (lines 152-157). -/
def missingEmail400 : Response :=
  ⟨400, Json.obj [("error", Json.str "Missing email parameter"),
                  ("details", Json.str "Please provide ?email=example@domain.com")]⟩

/-- `GET /api/contacts/by-email` (lines 149-201): a falsy `email` query value
is rejected locally with 400 and no upstream call; otherwise one search call;
`{ found: false }` on an empty result list, else `{ found: true, contact:
{ id, properties } }` from the first result; search failure is a 500. -/
def byEmailHandler (email : Option String) (upstream : Except SearchError Json) :
    Response × List UpstreamCall :=
  match email with
  | none => (missingEmail400, [])
  | some e =>
    if e = "" then (missingEmail400, [])
    else
      let call := UpstreamCall.searchContacts (searchRequestFor e)
      match upstream with
      | Except.error err =>
        (⟨500, Json.obj [("error", Json.str "Failed to search contact by email"),
                         ("details", Json.str (searchErrorDetails err))]⟩, [call])
      | Except.ok response =>
        match getResultsArr response with
        | [] => (⟨200, Json.obj [("found", Json.bool false)]⟩, [call])
        | contact :: _ =>
          (⟨200, Json.obj
             [("found", Json.bool true),
              ("contact", objDropUndefined
                 [("id", jsonLookup contact "id"),
                  ("properties", jsonLookup contact "properties")])]⟩, [call])

/-- The 400 body for a missing deal field (lines 245-250). -/
def missingDealField400 : Response :=
  ⟨400, Json.obj
    [("error", Json.str "Missing dealProperties or contactId"),
     ("details", Json.str
       "Request body must include \x7b dealProperties: \x7b...\x7d, contactId: \"123\" \x7d")]⟩

/-- `POST /api/deals` (lines 241-279): reject locally with 400 and no
upstream call when `dealProperties` or `contactId` is falsy; otherwise create
the deal, then PUT the v3 association of the created deal's `id` to
`contactId` with association type 3; respond with the created deal after both
succeed; any upstream failure becomes one generic 500. -/
def createDealHandler (body : Json)
    (dealUpstream : Except AxiosError Json)
    (assocUpstream : Except AxiosError Json) :
    Response × List UpstreamCall :=
  let dealProperties := jsonLookup body "dealProperties"
  let contactId := jsonLookup body "contactId"
  if !optTruthy dealProperties || !optTruthy contactId then
    (missingDealField400, [])
  else
    let createCall := UpstreamCall.postDeal dealProperties
    match dealUpstream with
    | Except.error e => (mkError500 "Failed to create deal" e, [createCall])
    | Except.ok deal =>
      let assocCall :=
        UpstreamCall.putDealContactAssoc (jsonLookup deal "id") contactId 3
      match assocUpstream with
      | Except.error e =>
        (mkError500 "Failed to create deal" e, [createCall, assocCall])
      | Except.ok _ => (⟨200, deal⟩, [createCall, assocCall])

/-- `.filter(Boolean)` over mapped property accesses: keeps only defined,
truthy values (line 300). -/
def filterTruthy (xs : List (Option Json)) : List Json :=
  xs.filterMap (fun o => match o with
    | some j => if jsonTruthy j then some j else none
    | none => none)

/-- The batch-read body built on lines 307-313: the deal property set and
`inputs: dealIds.map(id => (\x7b id \x7d))`. -/
def batchReadPayload (dealIds : List Json) : Json :=
  Json.obj [("properties", Json.arr (dealPropertyList.map Json.str)),
            ("inputs", Json.arr (dealIds.map (fun id => Json.obj [("id", id)])))]

/-- `GET /api/contacts/:contactId/deals` (lines 283-330): list the contact's
deal associations (limit 100), keep the truthy `toObjectId`s, respond
`{ results: [] }` without a second call when none remain, otherwise one
batch-read of those ids and `{ results: batch.results || [] }`; any upstream
failure becomes a generic 500. -/
def contactDealsHandler (contactId : String)
    (assocUpstream : Except AxiosError Json)
    (batchUpstream : Except AxiosError Json) :
    Response × List UpstreamCall :=
  let assocCall := UpstreamCall.getContactDealAssoc contactId 100
  match assocUpstream with
  | Except.error e => (mkError500 "Failed to fetch deals for contact" e, [assocCall])
  | Except.ok data =>
    let associations := getResultsArr data
    let dealIds := filterTruthy (associations.map (fun a => jsonLookup a "toObjectId"))
    if dealIds.isEmpty then
      (⟨200, Json.obj [("results", Json.arr [])]⟩, [assocCall])
    else
      let batchCall := UpstreamCall.batchReadDeals (batchReadPayload dealIds)
      match batchUpstream with
      | Except.error e =>
        (mkError500 "Failed to fetch deals for contact" e, [assocCall, batchCall])
      | Except.ok bdata =>
        (⟨200, Json.obj [("results", Json.arr (getResultsArr bdata))]⟩,
         [assocCall, batchCall])

/-- Claim C1: when the upstream contact-create call fails with HTTP status 409
or category CONFLICT, a message from which "Existing ID: <digits>" parses
yields a 200 response `\x7b id: <digits>, properties: <the input properties>,
existing: true \x7d`; when no id parses, a 409 carrying the raw upstream error
under `details`. -/
theorem C1_conflict_branch (body : Json) (e : AxiosError)
    (hconf : isConflict e = true) :
    (∀ (ids : String) (p : Json),
       extractExistingId (messageOf e) = some ids →
       jsonLookup body "properties" = some p →
       jsonTruthy p = true →
       createContactHandler body (Except.error e) =
         (⟨200, Json.obj [("id", Json.str ids),
                          ("properties", p),
                          ("existing", Json.bool true)]⟩,
          [UpstreamCall.postContact (some p)])) ∧
    (extractExistingId (messageOf e) = none →
       createContactHandler body (Except.error e) =
         (⟨409, Json.obj [("error", Json.str "Contact already exists"),
                          ("details", jsOrStr (hubspotErrorOf e) (messageOf e))]⟩,
          [UpstreamCall.postContact (jsonLookup body "properties")])) := by
  constructor
  · intro ids p hext hp ht
    simp [createContactHandler, hconf, hext, hp, jsOr, ht]
  · intro hext
    simp [createContactHandler, hconf, hext]

/-- A concrete conflicting upstream error whose message carries an id. -/
def conflictErrWithId : AxiosError :=
  ⟨some ⟨409, some (Json.obj
     [("status", Json.str "error"),
      ("message", Json.str "Contact already exists. Existing ID: 179556362935"),
      ("category", Json.str "CONFLICT")])⟩,
   "Request failed with status code 409"⟩

/-- A concrete conflicting upstream error whose message carries no id. -/
def conflictErrNoId : AxiosError :=
  ⟨some ⟨409, some (Json.obj
     [("status", Json.str "error"),
      ("message", Json.str "Contact already exists."),
      ("category", Json.str "CONFLICT")])⟩,
   "Request failed with status code 409"⟩

/-- A concrete contact-creation request body. -/
def sampleContactBody : Json :=
  Json.obj [("properties", Json.obj [("email", Json.str "jane@example.com"),
                                     ("firstname", Json.str "Jane")])]

theorem C1_conflict_branch_witness :
    createContactHandler sampleContactBody (Except.error conflictErrWithId) =
      (⟨200, Json.obj [("id", Json.str "179556362935"),
                       ("properties", Json.obj [("email", Json.str "jane@example.com"),
                                                ("firstname", Json.str "Jane")]),
                       ("existing", Json.bool true)]⟩,
       [UpstreamCall.postContact (some (Json.obj
          [("email", Json.str "jane@example.com"),
           ("firstname", Json.str "Jane")]))]) ∧
    createContactHandler sampleContactBody (Except.error conflictErrNoId) =
      (⟨409, Json.obj [("error", Json.str "Contact already exists"),
                       ("details", jsOrStr (hubspotErrorOf conflictErrNoId)
                                           (messageOf conflictErrNoId))]⟩,
       [UpstreamCall.postContact (jsonLookup sampleContactBody "properties")]) :=
  ⟨(C1_conflict_branch sampleContactBody conflictErrWithId rfl).1
     "179556362935" (Json.obj [("email", Json.str "jane@example.com"),
                               ("firstname", Json.str "Jane")]) rfl rfl rfl,
   (C1_conflict_branch sampleContactBody conflictErrNoId rfl).2 rfl⟩

/-- Claim C8: in the synthesized conflict-success response, a request body
with no `properties` field yields `properties: \x7b\x7d` — the key is present
with an empty object value. -/
theorem C8_missing_properties_defaults_empty (body : Json) (e : AxiosError)
    (ids : String)
    (hconf : isConflict e = true)
    (hext : extractExistingId (messageOf e) = some ids)
    (hp : jsonLookup body "properties" = none) :
    createContactHandler body (Except.error e) =
      (⟨200, Json.obj [("id", Json.str ids),
                       ("properties", Json.obj []),
                       ("existing", Json.bool true)]⟩,
       [UpstreamCall.postContact none]) := by
  simp [createContactHandler, hconf, hext, hp, jsOr]

theorem C8_missing_properties_defaults_empty_witness :
    createContactHandler (Json.obj []) (Except.error conflictErrWithId) =
      (⟨200, Json.obj [("id", Json.str "179556362935"),
                       ("properties", Json.obj []),
                       ("existing", Json.bool true)]⟩,
       [UpstreamCall.postContact none]) :=
  C8_missing_properties_defaults_empty (Json.obj []) conflictErrWithId
    "179556362935" rfl rfl rfl

/-- Claim C10: the contact-creation handler reads only the `properties`
field of the request body, so two bodies agreeing on that field produce the
same upstream payload and the same response on any fixed upstream outcome. -/
theorem C10_only_properties_forwarded (b1 b2 : Json)
    (u : Except AxiosError Json)
    (h : jsonLookup b1 "properties" = jsonLookup b2 "properties") :
    createContactHandler b1 u = createContactHandler b2 u := by
  simp only [createContactHandler, h]

theorem C10_only_properties_forwarded_witness :
    jsonLookup (Json.obj [("properties", Json.obj [("email", Json.str "a@b.c")]),
                          ("role", Json.str "admin")]) "properties" =
      jsonLookup (Json.obj [("properties", Json.obj [("email", Json.str "a@b.c")])])
        "properties" ∧
    createContactHandler
        (Json.obj [("properties", Json.obj [("email", Json.str "a@b.c")]),
                   ("role", Json.str "admin")])
        (Except.ok (Json.obj [("id", Json.str "42")])) =
      createContactHandler
        (Json.obj [("properties", Json.obj [("email", Json.str "a@b.c")])])
        (Except.ok (Json.obj [("id", Json.str "42")])) :=
  ⟨rfl,
   C10_only_properties_forwarded
     (Json.obj [("properties", Json.obj [("email", Json.str "a@b.c")]),
                ("role", Json.str "admin")])
     (Json.obj [("properties", Json.obj [("email", Json.str "a@b.c")])])
     (Except.ok (Json.obj [("id", Json.str "42")])) rfl⟩

/-- Claim C2: with truthy `dealProperties` and `contactId` and both upstream
calls succeeding, the deal handler issues exactly the create call followed by
the association call and responds with the created deal; with either field
falsy or absent it issues no upstream call and responds 400. -/
theorem C2_deal_create_two_calls_or_400 :
    (∀ (body p c deal a : Json),
       jsonLookup body "dealProperties" = some p → jsonTruthy p = true →
       jsonLookup body "contactId" = some c → jsonTruthy c = true →
       createDealHandler body (Except.ok deal) (Except.ok a) =
         (⟨200, deal⟩,
          [UpstreamCall.postDeal (some p),
           UpstreamCall.putDealContactAssoc (jsonLookup deal "id") (some c) 3])) ∧
    (∀ (body : Json) (du au : Except AxiosError Json),
       optTruthy (jsonLookup body "dealProperties") = false ∨
       optTruthy (jsonLookup body "contactId") = false →
       createDealHandler body du au = (missingDealField400, [])) := by
  constructor
  · intro body p c deal a hp hpt hc hct
    simp [createDealHandler, hp, hpt, hc, hct, optTruthy]
  · intro body du au h
    rcases h with h | h <;> simp [createDealHandler, h]

/-- A concrete valid deal-creation body. -/
def sampleDealBody : Json :=
  Json.obj [("dealProperties", Json.obj [("dealname", Json.str "Big deal")]),
            ("contactId", Json.str "123")]

theorem C2_deal_create_two_calls_or_400_witness :
    createDealHandler sampleDealBody
        (Except.ok (Json.obj [("id", Json.str "777")]))
        (Except.ok Json.null) =
      (⟨200, Json.obj [("id", Json.str "777")]⟩,
       [UpstreamCall.postDeal (some (Json.obj [("dealname", Json.str "Big deal")])),
        UpstreamCall.putDealContactAssoc (some (Json.str "777"))
          (some (Json.str "123")) 3]) ∧
    createDealHandler (Json.obj [("contactId", Json.str "123")])
        (Except.ok Json.null) (Except.ok Json.null) =
      (missingDealField400, []) :=
  ⟨by
     have h := C2_deal_create_two_calls_or_400.1 sampleDealBody
       (Json.obj [("dealname", Json.str "Big deal")]) (Json.str "123")
       (Json.obj [("id", Json.str "777")]) Json.null rfl rfl rfl rfl
     simpa using h,
   C2_deal_create_two_calls_or_400.2 (Json.obj [("contactId", Json.str "123")])
     (Except.ok Json.null) (Except.ok Json.null) (Or.inl rfl)⟩

/-- Claim C3: when the deal is created but the association call fails, the
response is the one generic 500, the trace stops at the two calls already
made (no rollback call follows), and the response does not depend on the
created deal, so its id cannot appear in the error body. -/
theorem C3_assoc_failure_generic_500 :
    (∀ (body p c deal : Json) (e : AxiosError),
       jsonLookup body "dealProperties" = some p → jsonTruthy p = true →
       jsonLookup body "contactId" = some c → jsonTruthy c = true →
       createDealHandler body (Except.ok deal) (Except.error e) =
         (mkError500 "Failed to create deal" e,
          [UpstreamCall.postDeal (some p),
           UpstreamCall.putDealContactAssoc (jsonLookup deal "id") (some c) 3])) ∧
    (∀ (body deal deal' : Json) (e : AxiosError),
       (createDealHandler body (Except.ok deal) (Except.error e)).1 =
       (createDealHandler body (Except.ok deal') (Except.error e)).1) := by
  constructor
  · intro body p c deal e hp hpt hc hct
    simp [createDealHandler, hp, hpt, hc, hct, optTruthy]
  · intro body deal deal' e
    by_cases h : (!optTruthy (jsonLookup body "dealProperties") ||
                  !optTruthy (jsonLookup body "contactId")) = true <;>
      simp [createDealHandler, h]

/-- A concrete association-step failure. -/
def assocFailure : AxiosError :=
  ⟨some ⟨404, some (Json.obj [("message", Json.str "contact not found")])⟩,
   "Request failed with status code 404"⟩

theorem C3_assoc_failure_generic_500_witness :
    createDealHandler sampleDealBody
        (Except.ok (Json.obj [("id", Json.str "777")]))
        (Except.error assocFailure) =
      (mkError500 "Failed to create deal" assocFailure,
       [UpstreamCall.postDeal (some (Json.obj [("dealname", Json.str "Big deal")])),
        UpstreamCall.putDealContactAssoc (some (Json.str "777"))
          (some (Json.str "123")) 3]) ∧
    (createDealHandler sampleDealBody
        (Except.ok (Json.obj [("id", Json.str "777")]))
        (Except.error assocFailure)).1 =
    (createDealHandler sampleDealBody
        (Except.ok (Json.obj [("id", Json.str "999")]))
        (Except.error assocFailure)).1 :=
  ⟨by
     have h := C3_assoc_failure_generic_500.1 sampleDealBody
       (Json.obj [("dealname", Json.str "Big deal")]) (Json.str "123")
       (Json.obj [("id", Json.str "777")]) assocFailure rfl rfl rfl rfl
     simpa using h,
   C3_assoc_failure_generic_500.2 sampleDealBody
     (Json.obj [("id", Json.str "777")]) (Json.obj [("id", Json.str "999")])
     assocFailure⟩

theorem filterTruthy_map_some (ids : List Json)
    (h : ∀ j ∈ ids, jsonTruthy j = true) : filterTruthy (ids.map some) = ids := by
  induction ids with
  | nil => rfl
  | cons j rest ih =>
    have hj := h j (List.mem_cons_self j rest)
    have hr := ih (fun x hx => h x (List.mem_cons_of_mem j hx))
    simp [filterTruthy] at hr ⊢
    simp [hj, hr]

theorem filterTruthy_eq_nil (xs : List (Option Json))
    (h : ∀ o ∈ xs, optTruthy o = false) : filterTruthy xs = [] := by
  induction xs with
  | nil => rfl
  | cons o rest ih =>
    have ho := h o (List.mem_cons_self o rest)
    have hr := ih (fun x hx => h x (List.mem_cons_of_mem o hx))
    cases o with
    | none => simpa [filterTruthy] using hr
    | some j =>
      simp [optTruthy] at ho
      simpa [filterTruthy, ho] using hr

/-- Claim C4: when the association listing yields associations whose
`toObjectId`s are the (truthy) list `ids`, nonempty, the handler issues one
batch-read call whose inputs are exactly those ids — as many as there are
associations — and responds with the batch read's result records. -/
theorem C4_batch_reads_all_ids (cid : String) (data bdata : Json)
    (ids : List Json)
    (hmap : (getResultsArr data).map (fun a => jsonLookup a "toObjectId") =
            ids.map some)
    (htr : ∀ j ∈ ids, jsonTruthy j = true)
    (hne : ids ≠ []) :
    contactDealsHandler cid (Except.ok data) (Except.ok bdata) =
      (⟨200, Json.obj [("results", Json.arr (getResultsArr bdata))]⟩,
       [UpstreamCall.getContactDealAssoc cid 100,
        UpstreamCall.batchReadDeals (batchReadPayload ids)]) ∧
    ids.length = (getResultsArr data).length := by
  have hfilter : filterTruthy ((getResultsArr data).map
      (fun a => jsonLookup a "toObjectId")) = ids := by
    rw [hmap]; exact filterTruthy_map_some ids htr
  constructor
  · simp [contactDealsHandler, hfilter, hne]
  · have := congrArg List.length hmap
    simpa using this.symm

/-- A concrete association-listing payload with two associations. -/
def sampleAssocData : Json :=
  Json.obj [("results", Json.arr
    [Json.obj [("toObjectId", Json.num 901), ("associationTypes", Json.arr [])],
     Json.obj [("toObjectId", Json.num 902), ("associationTypes", Json.arr [])]])]

/-- A concrete batch-read response. -/
def sampleBatchData : Json :=
  Json.obj [("results", Json.arr
    [Json.obj [("id", Json.str "901")], Json.obj [("id", Json.str "902")]])]

theorem C4_batch_reads_all_ids_witness :
    contactDealsHandler "42" (Except.ok sampleAssocData) (Except.ok sampleBatchData) =
      (⟨200, Json.obj [("results", Json.arr
         [Json.obj [("id", Json.str "901")], Json.obj [("id", Json.str "902")]])]⟩,
       [UpstreamCall.getContactDealAssoc "42" 100,
        UpstreamCall.batchReadDeals
          (batchReadPayload [Json.num 901, Json.num 902])]) ∧
    ([Json.num 901, Json.num 902] : List Json).length =
      (getResultsArr sampleAssocData).length :=
  (C4_batch_reads_all_ids "42" sampleAssocData sampleBatchData
     [Json.num 901, Json.num 902] rfl (by decide)
     (by simp))

/-- Claim C5: when the association listing yields zero associations, the
handler responds `\x7b results: [] \x7d` with only the association-listing
call in its trace — no batch-read call is issued. -/
theorem C5_zero_associations_no_batch (cid : String) (data : Json)
    (batchU : Except AxiosError Json)
    (h : getResultsArr data = []) :
    contactDealsHandler cid (Except.ok data) batchU =
      (⟨200, Json.obj [("results", Json.arr [])]⟩,
       [UpstreamCall.getContactDealAssoc cid 100]) := by
  simp [contactDealsHandler, h, filterTruthy]

theorem C5_zero_associations_no_batch_witness :
    contactDealsHandler "42" (Except.ok (Json.obj [("results", Json.arr [])]))
        (Except.ok sampleBatchData) =
      (⟨200, Json.obj [("results", Json.arr [])]⟩,
       [UpstreamCall.getContactDealAssoc "42" 100]) :=
  C5_zero_associations_no_batch "42" (Json.obj [("results", Json.arr [])])
    (Except.ok sampleBatchData) rfl

theorem filterTruthy_append (l1 l2 : List (Option Json)) :
    filterTruthy (l1 ++ l2) = filterTruthy l1 ++ filterTruthy l2 := by
  simp [filterTruthy, List.filterMap_append]

theorem filterTruthy_cons_falsy (o : Option Json) (rest : List (Option Json))
    (h : optTruthy o = false) :
    filterTruthy (o :: rest) = filterTruthy rest := by
  cases o with
  | none => rfl
  | some j =>
    simp [optTruthy] at h
    simp [filterTruthy, h]

/-- Claim C9: association records whose `toObjectId` is absent or falsy are
silently dropped before the batch read: removing such a record from anywhere
in the listing leaves the handler output unchanged, and when every returned
association lacks a truthy `toObjectId`, the handler responds
`\x7b results: [] \x7d` and issues no batch-read call even though the
listing was non-empty. -/
theorem C9_falsy_toObjectId_dropped :
    (∀ (cid : String) (data data' : Json) (batchU : Except AxiosError Json)
       (xs ys : List Json) (a : Json),
       optTruthy (jsonLookup a "toObjectId") = false →
       getResultsArr data = xs ++ a :: ys →
       getResultsArr data' = xs ++ ys →
       contactDealsHandler cid (Except.ok data) batchU =
         contactDealsHandler cid (Except.ok data') batchU) ∧
    (∀ (cid : String) (data : Json) (batchU : Except AxiosError Json),
       (∀ a ∈ getResultsArr data, optTruthy (jsonLookup a "toObjectId") = false) →
       contactDealsHandler cid (Except.ok data) batchU =
         (⟨200, Json.obj [("results", Json.arr [])]⟩,
          [UpstreamCall.getContactDealAssoc cid 100])) := by
  constructor
  · intro cid data data' batchU xs ys a hfalsy hdata hdata'
    have hkey : filterTruthy ((getResultsArr data).map
          (fun x => jsonLookup x "toObjectId")) =
        filterTruthy ((getResultsArr data').map
          (fun x => jsonLookup x "toObjectId")) := by
      rw [hdata, hdata']
      simp only [List.map_append, List.map_cons, filterTruthy_append]
      rw [filterTruthy_cons_falsy _ _ hfalsy]
    simp only [contactDealsHandler, hkey]
  · intro cid data batchU h
    have hnil : filterTruthy ((getResultsArr data).map
        (fun a => jsonLookup a "toObjectId")) = [] := by
      apply filterTruthy_eq_nil
      intro o ho
      rcases List.mem_map.mp ho with ⟨a, ha, rfl⟩
      exact h a ha
    simp [contactDealsHandler, hnil]

/-- A non-empty association listing in which no record has a `toObjectId`. -/
def assocDataNoIds : Json :=
  Json.obj [("results", Json.arr
    [Json.obj [("type", Json.str "contact_to_deal")],
     Json.obj [("toObjectId", Json.null)]])]

/-- A mixed association listing: a falsy-`toObjectId` record between two
truthy ones. -/
def assocDataMixed : Json :=
  Json.obj [("results", Json.arr
    [Json.obj [("toObjectId", Json.num 901)],
     Json.obj [("type", Json.str "contact_to_deal")],
     Json.obj [("toObjectId", Json.num 902)]])]

/-- The mixed listing with the falsy record removed. -/
def assocDataMixedDropped : Json :=
  Json.obj [("results", Json.arr
    [Json.obj [("toObjectId", Json.num 901)],
     Json.obj [("toObjectId", Json.num 902)]])]

theorem C9_falsy_toObjectId_dropped_witness :
    contactDealsHandler "42" (Except.ok assocDataMixed) (Except.ok sampleBatchData) =
      contactDealsHandler "42" (Except.ok assocDataMixedDropped)
        (Except.ok sampleBatchData) ∧
    contactDealsHandler "42" (Except.ok assocDataNoIds) (Except.ok sampleBatchData) =
      (⟨200, Json.obj [("results", Json.arr [])]⟩,
       [UpstreamCall.getContactDealAssoc "42" 100]) :=
  ⟨C9_falsy_toObjectId_dropped.1 "42" assocDataMixed assocDataMixedDropped
     (Except.ok sampleBatchData)
     [Json.obj [("toObjectId", Json.num 901)]]
     [Json.obj [("toObjectId", Json.num 902)]]
     (Json.obj [("type", Json.str "contact_to_deal")])
     (by decide) rfl rfl,
   C9_falsy_toObjectId_dropped.2 "42" assocDataNoIds (Except.ok sampleBatchData)
     (by decide)⟩

/-- Claim C6: a missing `email` query parameter yields the local 400 with no
upstream call; with an email, one search call is issued, an empty result list
yields `\x7b found: false \x7d`, and a first result `c` yields
`\x7b found: true, contact: \x7b id, properties \x7d \x7d` built from `c`. -/
theorem C6_by_email_contract :
    (∀ u, byEmailHandler none u = (missingEmail400, [])) ∧
    (∀ (e : String) (data : Json), e ≠ "" → getResultsArr data = [] →
       byEmailHandler (some e) (Except.ok data) =
         (⟨200, Json.obj [("found", Json.bool false)]⟩,
          [UpstreamCall.searchContacts (searchRequestFor e)])) ∧
    (∀ (e : String) (data c : Json) (rest : List Json), e ≠ "" →
       getResultsArr data = c :: rest →
       byEmailHandler (some e) (Except.ok data) =
         (⟨200, Json.obj
            [("found", Json.bool true),
             ("contact", objDropUndefined
                [("id", jsonLookup c "id"),
                 ("properties", jsonLookup c "properties")])]⟩,
          [UpstreamCall.searchContacts (searchRequestFor e)])) := by
  refine ⟨fun u => rfl, ?_, ?_⟩
  · intro e data he hres
    simp [byEmailHandler, he, hres]
  · intro e data c rest he hres
    simp [byEmailHandler, he, hres]

/-- A concrete search response holding one contact. -/
def sampleSearchHit : Json :=
  Json.obj [("total", Json.num 1),
            ("results", Json.arr
              [Json.obj [("id", Json.str "55"),
                         ("properties", Json.obj [("email", Json.str "jane@example.com")])]])]

theorem C6_by_email_contract_witness :
    byEmailHandler none (Except.ok sampleSearchHit) = (missingEmail400, []) ∧
    byEmailHandler (some "nobody@example.com")
        (Except.ok (Json.obj [("total", Json.num 0), ("results", Json.arr [])])) =
      (⟨200, Json.obj [("found", Json.bool false)]⟩,
       [UpstreamCall.searchContacts (searchRequestFor "nobody@example.com")]) ∧
    byEmailHandler (some "jane@example.com") (Except.ok sampleSearchHit) =
      (⟨200, Json.obj
         [("found", Json.bool true),
          ("contact", objDropUndefined
             [("id", some (Json.str "55")),
              ("properties", some (Json.obj [("email", Json.str "jane@example.com")]))])]⟩,
       [UpstreamCall.searchContacts (searchRequestFor "jane@example.com")]) :=
  ⟨C6_by_email_contract.1 (Except.ok sampleSearchHit),
   C6_by_email_contract.2.1 "nobody@example.com"
     (Json.obj [("total", Json.num 0), ("results", Json.arr [])])
     (by decide) rfl,
   C6_by_email_contract.2.2 "jane@example.com" sampleSearchHit
     (Json.obj [("id", Json.str "55"),
                ("properties", Json.obj [("email", Json.str "jane@example.com")])])
     [] (by decide) rfl⟩

/-- Claim C7: the list-contacts handler issues exactly one upstream call with
page size 50 and the fixed comma-joined property list; on success it responds
`\x7b results: data.results || [] \x7d`, and on failure a 500 carrying the
upstream error details — the trace never holds more than that one call. -/
theorem C7_list_contacts_contract :
    (∀ data, listContactsHandler (Except.ok data) =
       (⟨200, Json.obj [("results", Json.arr (getResultsArr data))]⟩,
        [UpstreamCall.getContacts 50
           "firstname,lastname,email,phone,address,jobtitle,company"])) ∧
    (∀ e, listContactsHandler (Except.error e) =
       (⟨500, Json.obj [("error", Json.str "Failed to fetch contacts"),
                        ("details", jsOrStr (hubspotErrorOf e) e.message)]⟩,
        [UpstreamCall.getContacts 50
           "firstname,lastname,email,phone,address,jobtitle,company"])) :=
  ⟨fun _ => rfl, fun _ => rfl⟩
